import Mathlib

/-!
Shallow embedding of `src/pycall/callfile.py` (class `CallFile`).

The external collaborators (`pycall.Call`, `pycall.actions.Application` /
`pycall.actions.Context`) are abstracted to the capabilities the code uses:
a validity bit and a list of rendered directive lines.  The operating
system (filesystem, `pwd.getpwnam`, `os.chown`, `os.utime`, `shutil.move`)
and the paramiko transport layer are modelled by an explicit filesystem
state, an environment describing the outcome of each OS / remote call, and
an event trace recording the side effects in the order the code performs
them.
-/

namespace Pycall

/-- The error classes of `pycall.errors` raised by `callfile.py`, plus
`ioError` for a Python `IOError` that escapes uncaught (the password branch
of `remote_spool` catches only `paramiko.SSHException`). -/
inductive PyErr
  | validationError
  | noUserError
  | noUserPermissionError
  | invalidTimeError
  | noSpoolPermissionError
  | paramikoError
  | ioError
deriving DecidableEq, Repr

/-- Abstraction of a `pycall.Call` instance: `callfile.py` only uses
`call.is_valid()` and `call.render()`. -/
structure Call where
  valid : Bool
  renderLines : List String
deriving DecidableEq, Repr

/-- Abstraction of the `action` collaborator: an `Application` instance or a
`Context` instance, each only used through `action.render()`. -/
inductive ActionObj
  | application (lines : List String)
  | context (lines : List String)
deriving DecidableEq, Repr

/-- `action.render()`. -/
def ActionObj.render : ActionObj → List String
  | .application ls => ls
  | .context ls => ls

/-- Local filesystem state: file contents by path, plus which paths are
existing directories (for `Path(...).abspath().isdir()`). -/
structure Fs where
  files : String → Option String
  dirs : String → Bool

/-- Overwrite (or create) the file at path `p` with content `s`. -/
def Fs.write (fs : Fs) (p s : String) : Fs :=
  { fs with files := fun q => if q = p then some s else fs.files q }

/-- Remove the file at path `p`. -/
def Fs.erase (fs : Fs) (p : String) : Fs :=
  { fs with files := fun q => if q = p then none else fs.files q }

/-- Side-effect events, in the order the code performs them.  Remote
(sftp/transport) effects are recorded as events because the remote host's
state is outside the local filesystem. -/
inductive Ev
  | truncateFile (path : String)
  | writeFile (path content : String)
  | localChown (path : String) (uid gid : Nat)
  | localUtime (path : String) (t : Nat)
  | localMove (src dst : String)
  | connectPw (host usr : String)
  | connectKey (host usr : String)
  | sftpOpen
  | sftpPut (src dst : String)
  | sftpChown (path : String) (uid gid : Nat)
  | sftpRename (src dst : String)
  | sftpClose
  | transportClose
  | clientClose
  | loadKey (path : String)
deriving DecidableEq, Repr

/-- Kinds of Python exception a paramiko operation can raise:
`paramiko.SSHException` or `IOError`. -/
inductive PErr
  | ssh
  | io
deriving DecidableEq, Repr

/-- The fallible remote steps of a `remote_spool` branch, in program order:
`Transport(...)`+`t.connect(...)`, `SFTPClient.from_transport(t)`,
`sftp.put`, `sftp.chown`, `sftp.rename`. -/
inductive RStep
  | connect
  | openChan
  | put
  | chownStep
  | rename
deriving DecidableEq, Repr

/-- Environment: the outcome of each OS and paramiko call.
`users` is `pwd.getpwnam` restricted to `(pw_uid, pw_gid)`; `none` means
`KeyError`.  `chownOk` / `utimeOk` / `moveOk` tell whether `os.chown`,
`os.utime` and `shutil.move` succeed.  `pwFail s` / `keyFail s` give the
exception (if any) raised by remote step `s` in the password / key branch;
`keyLoad` is the exception (if any) of `RSAKey.from_private_key_file`. -/
structure Env where
  users : String → Option (Nat × Nat)
  chownOk : Bool
  utimeOk : Bool
  moveOk : Bool
  pwFail : RStep → Option PErr
  keyFail : RStep → Option PErr
  keyLoad : Option PErr

/-- The `CallFile` object after `__init__`: `call` is `none` when the stored
object is not a `Call` instance, `action` is `none` when it is neither an
`Application` nor a `Context` instance.  `archive` and `user` keep Python
truthiness: `archive : Bool` collapses the truthiness of the stored value,
`user = none` models `None` and `some ""` a falsy empty string. -/
structure CallFile where
  call : Option Call
  action : Option ActionObj
  archive : Bool
  user : Option String
  spool_dir : String
  filename : String
  tempdir : String

/-- `CallFile.DEFAULT_SPOOL_DIR`. -/
def DEFAULT_SPOOL_DIR : String := "/var/spool/asterisk/outgoing"

/-- Line 44 of `__init__`: `self.spool_dir = spool_dir or self.DEFAULT_SPOOL_DIR`
(a falsy argument — `None` or the empty string — yields the default). -/
def initSpoolDir (sd : Option String) : String :=
  match sd with
  | none => DEFAULT_SPOOL_DIR
  | some s => if s = "" then DEFAULT_SPOOL_DIR else s

/-- `Path(self.tempdir) / Path(self.filename)`. -/
def CallFile.workPath (cf : CallFile) : String :=
  cf.tempdir ++ "/" ++ cf.filename

/-- `Path(self.spool_dir) / Path(self.filename)`. -/
def CallFile.spoolPath (cf : CallFile) : String :=
  cf.spool_dir ++ "/" ++ cf.filename

/-- `call.render()` as used by `buildfile` (only reached when `call` is a
`Call` instance). -/
def CallFile.callRenderL (cf : CallFile) : List String :=
  match cf.call with
  | some c => c.renderLines
  | none => []

/-- `action.render()` as used by `buildfile`. -/
def CallFile.actionRenderL (cf : CallFile) : List String :=
  match cf.action with
  | some a => a.render
  | none => []

/-- `CallFile.is_valid` (lines 65-84): the stored call must be a `Call`
instance, the action an `Application` or `Context` instance, the spool
directory (when truthy) an existing directory, and `call.is_valid()` true. -/
def CallFile.is_valid (cf : CallFile) (fs : Fs) : Bool :=
  if cf.call.isNone then false
  else if cf.action.isNone then false
  else if (cf.spool_dir != "") && ! fs.dirs cf.spool_dir then false
  else if ! (match cf.call with | some c => c.valid | none => false) then false
  else true

/-- `CallFile.buildfile` (lines 86-104): raise `ValidationError` when
invalid, else `call.render() + action.render()`, appending `'Archive: yes'`
when `archive` is truthy. -/
def CallFile.buildfile (cf : CallFile) (fs : Fs) : Except PyErr (List String) :=
  if ! cf.is_valid fs then
    .error .validationError
  else
    let lines := cf.callRenderL ++ cf.actionRenderL
    .ok (if cf.archive then lines ++ ["Archive: yes"] else lines)

/-- `CallFile.contents` (lines 106-113): `'\n'.join(self.buildfile())`. -/
def CallFile.contents (cf : CallFile) (fs : Fs) : Except PyErr String :=
  match cf.buildfile fs with
  | .error e => .error e
  | .ok ls => .ok (String.intercalate "\n" ls)

/-- The directive lines of a valid call file, for stating theorems. -/
def CallFile.renderedLines (cf : CallFile) : List String :=
  cf.callRenderL ++ cf.actionRenderL ++
    (if cf.archive then ["Archive: yes"] else [])

/-- Result of a stateful operation: outcome, final local filesystem, and
the event trace. -/
structure Out where
  res : Except PyErr Unit
  fs : Fs
  tr : List Ev

/-- `CallFile.writefile` (lines 115-118): Python evaluates
`open(Path(self.tempdir) / Path(self.filename), 'w')` first — creating, or
truncating to empty, any file at `tempdir/filename` — and only then
evaluates `self.contents`, which is where validation runs.  On a
`ValidationError` the `with` block closes the already-truncated file and
the exception propagates; on success the contents are written to it. -/
def CallFile.writefile (cf : CallFile) (fs : Fs) : Out :=
  match cf.contents (fs.write cf.workPath "") with
  | .error e => ⟨.error e, fs.write cf.workPath "", [.truncateFile cf.workPath]⟩
  | .ok s => ⟨.ok (), (fs.write cf.workPath "").write cf.workPath s,
      [.truncateFile cf.workPath, .writeFile cf.workPath s]⟩

/-- The owner block shared verbatim by `spool` (lines 132-143) and
`remote_spool` (lines 161-172): when `self.user` is truthy, resolve it with
`getpwnam` (a `KeyError` becomes `NoUserError`), rebind the local variables
`uid`/`gid` to the resolved pair, and `os.chown` the work file (an
`os.error` becomes `NoUserPermissionError`).  Returns the (possibly
rebound) `uid`/`gid` and the chown events performed. -/
def CallFile.localOwnerStep (cf : CallFile) (env : Env) (uid gid : Nat) :
    Except PyErr (Nat × Nat × List Ev) :=
  match cf.user with
  | none => .ok (uid, gid, [])
  | some u =>
    if u = "" then .ok (uid, gid, [])
    else
      match env.users u with
      | none => .error .noUserError
      | some (u2, g2) =>
        if env.chownOk then .ok (u2, g2, [.localChown cf.workPath u2 g2])
        else .error .noUserPermissionError

/-- Lines 152-156 of `spool`: `shutil.move` of the work file into the spool
directory; an `IOError` becomes `NoSpoolPermissionError`.  A successful
move removes the source and (over)writes the destination. -/
def CallFile.doMove (cf : CallFile) (env : Env) (fs : Fs) (tr : List Ev) : Out :=
  if env.moveOk then
    match fs.files cf.workPath with
    | some s =>
      ⟨.ok (), (fs.erase cf.workPath).write cf.spoolPath s,
        tr ++ [.localMove cf.workPath cf.spoolPath]⟩
    | none => ⟨.error .noSpoolPermissionError, fs, tr⟩
  else ⟨.error .noSpoolPermissionError, fs, tr⟩

/-- `CallFile.spool` (lines 120-156).  The `time` argument models the
optional `datetime`: `none` is `None`; `some none` a truthy value whose
conversion by `mktime(time.timetuple())` raises (→ `InvalidTimeError`);
`some (some t)` one converting to the POSIX timestamp `t`, after which
`os.utime` runs (its `os.error` is also caught as `InvalidTimeError`). -/
def CallFile.spool (cf : CallFile) (env : Env) (time : Option (Option Nat))
    (fs : Fs) : Out :=
  let w := cf.writefile fs
  match w.res with
  | .error _ => w
  | .ok _ =>
    match cf.localOwnerStep env 0 0 with
    | .error e => ⟨.error e, w.fs, w.tr⟩
    | .ok (_, _, tr1) =>
      match time with
      | none => cf.doMove env w.fs (w.tr ++ tr1)
      | some conv =>
        match conv with
        | none => ⟨.error .invalidTimeError, w.fs, w.tr ++ tr1⟩
        | some t =>
          if env.utimeOk then
            cf.doMove env w.fs (w.tr ++ tr1 ++ [.localUtime cf.workPath t])
          else ⟨.error .invalidTimeError, w.fs, w.tr ++ tr1⟩

/-- One paramiko branch of `remote_spool`: run the remote steps in program
order, stopping at the first step whose outcome is an exception.  Returns
the exception (if any) and the events of the steps that ran; on full
success the branch closes the sftp channel, the transport and the client
(lines 184-186 / 200-202). -/
def runRemote (fail : RStep → Option PErr) (connectEv : Ev)
    (wp sp : String) (uid gid : Nat) : Option PErr × List Ev :=
  match fail .connect with
  | some e => (some e, [])
  | none =>
    match fail .openChan with
    | some e => (some e, [connectEv])
    | none =>
      match fail .put with
      | some e => (some e, [connectEv, .sftpOpen])
      | none =>
        match fail .chownStep with
        | some e => (some e, [connectEv, .sftpOpen, .sftpPut wp wp])
        | none =>
          match fail .rename with
          | some e =>
            (some e, [connectEv, .sftpOpen, .sftpPut wp wp,
                      .sftpChown wp uid gid])
          | none =>
            (none, [connectEv, .sftpOpen, .sftpPut wp wp,
                    .sftpChown wp uid gid, .sftpRename wp sp,
                    .sftpClose, .transportClose, .clientClose])

/-- `CallFile.remote_spool` (lines 158-204).  After materializing the file
and running the owner block (which rebinds `uid`/`gid` when `self.user` is
set), the password branch runs when `passwd` is truthy — its `except`
catches only `paramiko.SSHException` (→ `ParamikoError`), so an `IOError`
escapes uncaught — and then the key branch runs when `pkeypath` is truthy,
whose `except` catches both `SSHException` and `IOError` (→
`ParamikoError`), including a failure to load the private key file.
`sftp.put` uploads the work file to the identical remote path and
`sftp.rename` moves it to the remote spool path. -/
def CallFile.remote_spool (cf : CallFile) (env : Env) (ipaddr usr : String)
    (uid gid : Nat) (passwd pkeypath : Option String) (fs : Fs) : Out :=
  let w := cf.writefile fs
  match w.res with
  | .error _ => w
  | .ok _ =>
    match cf.localOwnerStep env uid gid with
    | .error e => ⟨.error e, w.fs, w.tr⟩
    | .ok (uid2, gid2, tr1) =>
      let tr := w.tr ++ tr1
      let pwRun : Option PyErr × List Ev :=
        match passwd with
        | none => (none, [])
        | some p =>
          if p = "" then (none, [])
          else
            match runRemote env.pwFail (.connectPw ipaddr usr)
                cf.workPath cf.spoolPath uid2 gid2 with
            | (none, evs) => (none, evs)
            | (some .ssh, evs) => (some .paramikoError, evs)
            | (some .io, evs) => (some .ioError, evs)
      match pwRun with
      | (some e, evs) => ⟨.error e, w.fs, tr ++ evs⟩
      | (none, evs) =>
        let tr2 := tr ++ evs
        match pkeypath with
        | none => ⟨.ok (), w.fs, tr2⟩
        | some kp =>
          if kp = "" then ⟨.ok (), w.fs, tr2⟩
          else
            match env.keyLoad with
            | some _ => ⟨.error .paramikoError, w.fs, tr2⟩
            | none =>
              match runRemote env.keyFail (.connectKey ipaddr usr)
                  cf.workPath cf.spoolPath uid2 gid2 with
              | (none, evs2) => ⟨.ok (), w.fs, tr2 ++ [.loadKey kp] ++ evs2⟩
              | (some _, evs2) =>
                ⟨.error .paramikoError, w.fs, tr2 ++ [.loadKey kp] ++ evs2⟩

/-- Is the event a local move into the spool directory? -/
def Ev.isMove : Ev → Bool
  | .localMove _ _ => true
  | _ => false

/-- Is the event a local ownership or timestamp adjustment? -/
def Ev.isAdjust : Ev → Bool
  | .localChown _ _ _ => true
  | .localUtime _ _ => true
  | _ => false

/-- Is the event a remote (paramiko) operation? -/
def Ev.isRemote : Ev → Bool
  | .connectPw _ _ => true
  | .connectKey _ _ => true
  | .sftpOpen => true
  | .sftpPut _ _ => true
  | .sftpChown _ _ _ => true
  | .sftpRename _ _ => true
  | .sftpClose => true
  | .transportClose => true
  | .clientClose => true
  | .loadKey _ => true
  | _ => false

/-- Does the event open a transport session? -/
def Ev.isOpenSession : Ev → Bool
  | .connectPw _ _ => true
  | .connectKey _ _ => true
  | _ => false

/-- Does the event close a transport session? -/
def Ev.isCloseSession : Ev → Bool
  | .transportClose => true
  | _ => false

/-- True when no ownership/timestamp adjustment occurs after a move in the
trace (the adjust-before-relocate ordering). -/
def noAdjustAfterMove : List Ev → Bool
  | [] => true
  | e :: rest =>
    if e.isMove then rest.all (fun x => ! x.isAdjust)
    else noAdjustAfterMove rest

/-- The exception raised by the first failing remote step of a branch, in
program order, if any. -/
def firstFailure (fail : RStep → Option PErr) : Option PErr :=
  ([RStep.connect, .openChan, .put, .chownStep, .rename].filterMap fail).head?

/-- Phase number of an event in the local spool pipeline: materialize,
chown, utime, move.  Remote events share a final phase (unused locally). -/
def Ev.phase : Ev → Nat
  | .truncateFile _ => 0
  | .writeFile _ _ => 0
  | .localChown _ _ _ => 1
  | .localUtime _ _ => 2
  | .localMove _ _ => 3
  | _ => 4

/-- Is the list of naturals nondecreasing? -/
def sortedLe : List Nat → Bool
  | [] => true
  | [_] => true
  | a :: b :: rest => decide (a ≤ b) && sortedLe (b :: rest)

/-- Example call file from spec §8: a valid target, a Playback application,
archive on. -/
def cfEx : CallFile :=
  { call := some ⟨true, ["Channel: Local/5551234"]⟩
  , action := some (.application ["Application: Playback", "Data: hello-world"])
  , archive := true
  , user := none
  , spool_dir := "/sp"
  , filename := "f.call"
  , tempdir := "/tmp" }

/-- Example filesystem: only `/sp` exists as a directory, no files. -/
def fsEx : Fs := ⟨fun _ => none, fun d => d == "/sp"⟩

/-- An invalid call file: the action object is neither an `Application` nor
a `Context` instance. -/
def cfBadAction : CallFile :=
  { cfEx with action := none }

/-- A filesystem that already has a file at `cfBadAction`'s work path. -/
def fsPre : Fs := (fsEx.write cfBadAction.workPath "old")

/-- An environment where every OS and remote operation succeeds and no
local user exists. -/
def envOk : Env :=
  { users := fun _ => none
  , chownOk := true
  , utimeOk := true
  , moveOk := true
  , pwFail := fun _ => none
  , keyFail := fun _ => none
  , keyLoad := none }

/-- The example call file owned by a user that does not exist locally. -/
def cfGhost : CallFile := { cfEx with user := some "ghost" }

/-- The example call file owned by the local user `bob`. -/
def cfBob : CallFile := { cfEx with user := some "bob" }

/-- An environment where the local user `bob` resolves to uid 5, gid 7 and
everything succeeds. -/
def envBob : Env :=
  { envOk with users := fun u => if u = "bob" then some (5, 7) else none }

/-- The error the password branch of `remote_spool` surfaces when a remote
step raises exception kind `e`: a `paramiko.SSHException` is caught by
line 187 and re-raised as `ParamikoError`; an `IOError`-family exception
(such as `socket.error`) is not caught there and escapes as itself. -/
def pwBranchErr : PErr → PyErr
  | .ssh => .paramikoError
  | .io => .ioError

/-- An environment where the password-path transport constructor raises a
`socket.error` (`IOError` family): the unreachable-host case in which
paramiko surfaces the raw socket failure. -/
def envConnRefused : Env :=
  { envOk with pwFail := fun s => match s with
      | .connect => some .io
      | _ => none }

/-- An environment where connecting the password-path transport raises
`paramiko.SSHException` (unreachable host / rejected authentication). -/
def envPwDown : Env :=
  { envOk with pwFail := fun s => match s with
      | .connect => some .ssh
      | _ => none }

/-- An environment where the transport connects but `sftp.put` raises
`paramiko.SSHException` mid-transfer. -/
def envPutFails : Env :=
  { envOk with pwFail := fun s => match s with
      | .put => some .ssh
      | _ => none }

/-- The example call file pointed at a spool directory that does not exist
locally. -/
def cfNoDir : CallFile := { cfEx with spool_dir := "/nonexistent" }

/-- A filesystem with no directories at all. -/
def fsNoDir : Fs := ⟨fun _ => none, fun _ => false⟩

end Pycall

namespace Pycall

/-- Helper shape: what `buildfile` returns on a valid call file. -/
theorem buildfile_eq_renderedLines (cf : CallFile) (fs : Fs)
    (h : cf.is_valid fs = true) :
    cf.buildfile fs = .ok cf.renderedLines := by
  unfold CallFile.buildfile CallFile.renderedLines
  rw [h]
  simp
  cases cf.archive <;> simp

/-- Helper: `contents` of a valid call file. -/
theorem contents_eq_renderedLines (cf : CallFile) (fs : Fs)
    (h : cf.is_valid fs = true) :
    cf.contents fs = .ok (String.intercalate "\n" cf.renderedLines) := by
  unfold CallFile.contents
  rw [buildfile_eq_renderedLines cf fs h]

/-- C1: for every valid call file, `buildfile` returns exactly
`call.render()` concatenated with `action.render()`, with the single line
`"Archive: yes"` appended iff `archive` is truthy, and `contents` is those
lines joined with newline separators. -/
theorem buildfile_valid_renders (cf : CallFile) (fs : Fs)
    (h : cf.is_valid fs = true) :
    cf.buildfile fs =
      .ok (cf.callRenderL ++ cf.actionRenderL ++
        (if cf.archive then ["Archive: yes"] else []))
    ∧ cf.contents fs =
      .ok (String.intercalate "\n"
        (cf.callRenderL ++ cf.actionRenderL ++
          (if cf.archive then ["Archive: yes"] else []))) := by
  have hb := buildfile_eq_renderedLines cf fs h
  have hc := contents_eq_renderedLines cf fs h
  unfold CallFile.renderedLines at hb hc
  exact ⟨hb, hc⟩

/-- C1 witness: the spec §8 scenario, evaluated. -/
theorem buildfile_valid_renders_witness :
    cfEx.is_valid fsEx = true ∧
    cfEx.buildfile fsEx =
      .ok ["Channel: Local/5551234", "Application: Playback",
           "Data: hello-world", "Archive: yes"] ∧
    cfEx.contents fsEx =
      .ok "Channel: Local/5551234\nApplication: Playback\nData: hello-world\nArchive: yes" := by
  have h := buildfile_valid_renders cfEx fsEx rfl
  exact ⟨rfl, h.1, h.2⟩

/-- C2: for every invalid call file, `buildfile` and `contents` fail with
`ValidationError` and return no directive lines; both are pure
computations over the current field values (their embedding reads the
filesystem and returns only a value, performing no write — the truncation
that does occur in the source belongs to `writefile`, not to these). -/
theorem invalid_build_fails (cf : CallFile) (fs : Fs)
    (h : cf.is_valid fs = false) :
    cf.buildfile fs = .error .validationError
    ∧ cf.contents fs = .error .validationError := by
  have hb : cf.buildfile fs = .error .validationError := by
    unfold CallFile.buildfile
    rw [h]
    simp
  have hc : cf.contents fs = .error .validationError := by
    unfold CallFile.contents
    rw [hb]
  exact ⟨hb, hc⟩

/-- C2 witness: an unrecognized action object fails validation and yields
no lines. -/
theorem invalid_build_fails_witness :
    cfBadAction.is_valid fsEx = false ∧
    cfBadAction.buildfile fsEx = .error .validationError ∧
    cfBadAction.contents fsEx = .error .validationError := by
  have h := invalid_build_fails cfBadAction fsEx rfl
  exact ⟨rfl, h.1, h.2⟩

/-- C3: code bug — `writefile` does not propagate the `ValidationError`
before the write begins: `open(path, 'w')` truncates (or creates) the file
at `workDirectory/fileName` first, and only then is `self.contents`
evaluated, so validation runs after the existing file has already been
destroyed.  Here the pre-existing content `"old"` is truncated to `""`
even though the `ValidationError` propagates. -/
theorem writefile_truncates_before_validation :
    cfBadAction.is_valid fsPre = false
    ∧ (cfBadAction.writefile fsPre).res = .error .validationError
    ∧ fsPre.files cfBadAction.workPath = some "old"
    ∧ (cfBadAction.writefile fsPre).fs.files cfBadAction.workPath = some "" :=
  ⟨rfl, rfl, rfl, rfl⟩

/-- Helper: `contents` only reads the directory table, which a file write
does not touch. -/
theorem contents_write_invariant (cf : CallFile) (fs : Fs) (p x : String) :
    cf.contents (fs.write p x) = cf.contents fs := rfl

/-- Helper: `writefile` when `contents` succeeds: the work file is first
truncated by the open, then filled with the contents. -/
theorem writefile_of_contents_ok (cf : CallFile) (fs : Fs) (s : String)
    (h : cf.contents fs = .ok s) :
    cf.writefile fs = ⟨.ok (), (fs.write cf.workPath "").write cf.workPath s,
      [.truncateFile cf.workPath, .writeFile cf.workPath s]⟩ := by
  unfold CallFile.writefile
  rw [contents_write_invariant cf fs cf.workPath "", h]

/-- Helper: `writefile` when `contents` fails: the open has already
truncated (or created) the work file when the exception propagates. -/
theorem writefile_of_contents_error (cf : CallFile) (fs : Fs) (e : PyErr)
    (h : cf.contents fs = .error e) :
    cf.writefile fs = ⟨.error e, fs.write cf.workPath "",
      [.truncateFile cf.workPath]⟩ := by
  unfold CallFile.writefile
  rw [contents_write_invariant cf fs cf.workPath "", h]

/-- Helper: the owner block emits no event or one local chown of the work
path with the resolved ids. -/
theorem localOwnerStep_tr (cf : CallFile) (env : Env) (uid gid u2 g2 : Nat)
    (tr1 : List Ev) (h : cf.localOwnerStep env uid gid = .ok (u2, g2, tr1)) :
    tr1 = [] ∨ tr1 = [.localChown cf.workPath u2 g2] := by
  unfold CallFile.localOwnerStep at h
  split at h
  · cases h
    exact Or.inl rfl
  · split at h
    · cases h
      exact Or.inl rfl
    · split at h
      · exact absurd h (by simp)
      · split at h
        · simp only [Except.ok.injEq, Prod.mk.injEq] at h
          obtain ⟨h1, h2, h3⟩ := h
          subst h1
          subst h2
          subst h3
          exact Or.inr rfl
        · exact absurd h (by simp)

/-- Helper: `doMove` either leaves the trace alone or appends one move. -/
theorem doMove_tr (cf : CallFile) (env : Env) (fs : Fs) (tr : List Ev) :
    (cf.doMove env fs tr).tr = tr ∨
    (cf.doMove env fs tr).tr = tr ++ [.localMove cf.workPath cf.spoolPath] := by
  unfold CallFile.doMove
  cases env.moveOk with
  | false => exact Or.inl rfl
  | true =>
    cases fs.files cf.workPath with
    | none => exact Or.inl rfl
    | some s => exact Or.inr rfl

/-- Helper: appending a value at least as large as every list element keeps
a nondecreasing list nondecreasing. -/
theorem sortedLe_append_last (l : List Nat) (n : Nat)
    (h1 : sortedLe l = true)
    (h2 : l.all (fun a => decide (a ≤ n)) = true) :
    sortedLe (l ++ [n]) = true := by
  induction l with
  | nil => rfl
  | cons a l ih =>
    cases l with
    | nil =>
      simp only [List.all_cons, Bool.and_eq_true] at h2
      simp [sortedLe, h2.1]
    | cons b l2 =>
      simp only [List.all_cons, Bool.and_eq_true] at h2
      simp only [sortedLe, Bool.and_eq_true] at h1
      have hrest := ih h1.2 (by simp [h2.2.1, h2.2.2])
      simp only [List.cons_append, sortedLe, Bool.and_eq_true]
      exact ⟨h1.1, hrest⟩

/-- Helper: `doMove` keeps pipeline order when the incoming trace is in
order and lies in phases up to the move phase. -/
theorem doMove_phases_sorted (cf : CallFile) (env : Env) (fs : Fs)
    (tr : List Ev)
    (h1 : sortedLe (tr.map Ev.phase) = true)
    (h2 : tr.all (fun e => decide (e.phase ≤ 3)) = true) :
    sortedLe ((cf.doMove env fs tr).tr.map Ev.phase) = true := by
  rcases doMove_tr cf env fs tr with h | h <;> rw [h]
  · exact h1
  · rw [List.map_append]
    refine sortedLe_append_last _ 3 h1 ?_
    simpa [List.all_map, Function.comp] using h2

/-- Helper: the trace of every `spool` run lists its events in pipeline
order — materialize, then chown, then utime, then move. -/
theorem spool_tr_phases_sorted (cf : CallFile) (env : Env)
    (t : Option (Option Nat)) (fs : Fs) :
    sortedLe ((cf.spool env t fs).tr.map Ev.phase) = true := by
  cases hc : cf.contents fs with
  | error e =>
    unfold CallFile.spool
    rw [writefile_of_contents_error cf fs e hc]
    simp [sortedLe]
  | ok s =>
    unfold CallFile.spool
    rw [writefile_of_contents_ok cf fs s hc]
    simp only
    cases hlo : cf.localOwnerStep env 0 0 with
    | error e => simp [sortedLe, Ev.phase]
    | ok trip =>
      obtain ⟨u2, g2, tr1⟩ := trip
      rcases localOwnerStep_tr cf env 0 0 u2 g2 tr1 hlo with h1 | h1 <;>
        subst h1 <;>
        cases t with
        | none =>
          apply doMove_phases_sorted <;> simp [sortedLe, Ev.phase]
        | some conv =>
          cases conv with
          | none => simp [sortedLe, Ev.phase]
          | some tv =>
            cases env.utimeOk with
            | false => simp [sortedLe, Ev.phase]
            | true =>
              apply doMove_phases_sorted <;> simp [sortedLe, Ev.phase]

/-- C4: for every valid call file with no `user` set, `spool` with no
scheduled time succeeds when the move is permitted: the file appears at
`spoolDirectory/fileName` with content `contents`, no file remains at
`workDirectory/fileName`, and the intermediate `writefile` round-trips
(`contents` is exactly what is read back at the work path). -/
theorem spool_no_owner_no_time (cf : CallFile) (env : Env) (fs : Fs)
    (hv : cf.is_valid fs = true) (hu : cf.user = none)
    (hm : env.moveOk = true) (hne : cf.workPath ≠ cf.spoolPath) :
    (cf.spool env none fs).res = .ok ()
    ∧ (cf.spool env none fs).fs.files cf.spoolPath =
        some (String.intercalate "\n" cf.renderedLines)
    ∧ (cf.spool env none fs).fs.files cf.workPath = none
    ∧ (cf.writefile fs).fs.files cf.workPath =
        some (String.intercalate "\n" cf.renderedLines) := by
  have hc := contents_eq_renderedLines cf fs hv
  have hw := writefile_of_contents_ok cf fs _ hc
  have hfiles : (cf.writefile fs).fs.files cf.workPath =
      some (String.intercalate "\n" cf.renderedLines) := by
    rw [hw]
    simp [Fs.write]
  have hres : (cf.spool env none fs).res = .ok () := by
    unfold CallFile.spool CallFile.localOwnerStep CallFile.doMove
    rw [hw, hu, hm]
    simp [Fs.write]
  have hsp : (cf.spool env none fs).fs.files cf.spoolPath =
      some (String.intercalate "\n" cf.renderedLines) := by
    unfold CallFile.spool CallFile.localOwnerStep CallFile.doMove
    rw [hw, hu, hm]
    simp [Fs.write, Fs.erase]
  have hwp : (cf.spool env none fs).fs.files cf.workPath = none := by
    unfold CallFile.spool CallFile.localOwnerStep CallFile.doMove
    rw [hw, hu, hm]
    simp [Fs.write, Fs.erase, hne]
  exact ⟨hres, hsp, hwp, hfiles⟩

/-- C4 witness: the example call file spooled into `/sp`. -/
theorem spool_no_owner_no_time_witness :
    cfEx.is_valid fsEx = true ∧
    (cfEx.spool envOk none fsEx).res = .ok () ∧
    (cfEx.spool envOk none fsEx).fs.files cfEx.spoolPath =
      some "Channel: Local/5551234\nApplication: Playback\nData: hello-world\nArchive: yes" ∧
    (cfEx.spool envOk none fsEx).fs.files cfEx.workPath = none := by
  have h := spool_no_owner_no_time cfEx envOk fsEx rfl rfl rfl (by decide)
  exact ⟨rfl, h.1, h.2.1, h.2.2.1⟩

/-- C5: for every call file whose `user` is a name `getpwnam` does not
know, `spool` fails with `NoUserError`, the materialized file remains at
`workDirectory/fileName` and no move into the spool directory happens; and
in general every `spool` trace keeps the pipeline order — ownership then
timestamp adjustments strictly before the move. -/
theorem spool_missing_owner_ordering (cf : CallFile) (env : Env)
    (t : Option (Option Nat)) (fs : Fs) (u : String)
    (hv : cf.is_valid fs = true) (hu : cf.user = some u) (hne : u ≠ "")
    (hmiss : env.users u = none) :
    (cf.spool env t fs).res = .error .noUserError
    ∧ (cf.spool env t fs).fs.files cf.workPath =
        some (String.intercalate "\n" cf.renderedLines)
    ∧ ((cf.spool env t fs).tr.all fun e => ! e.isMove) = true
    ∧ ∀ (cf2 : CallFile) (env2 : Env) (t2 : Option (Option Nat)) (fs2 : Fs),
        sortedLe ((cf2.spool env2 t2 fs2).tr.map Ev.phase) = true := by
  have hc := contents_eq_renderedLines cf fs hv
  have hw := writefile_of_contents_ok cf fs _ hc
  have hlo : cf.localOwnerStep env 0 0 = .error .noUserError := by
    unfold CallFile.localOwnerStep
    simp only [hu]
    simp [hne, hmiss]
  have hrun : cf.spool env t fs =
      ⟨.error .noUserError,
       (fs.write cf.workPath "").write cf.workPath
         (String.intercalate "\n" cf.renderedLines),
       [.truncateFile cf.workPath,
        .writeFile cf.workPath (String.intercalate "\n" cf.renderedLines)]⟩ := by
    unfold CallFile.spool
    rw [hw]
    simp only
    rw [hlo]
  rw [hrun]
  refine ⟨rfl, ?_, ?_, ?_⟩
  · simp [Fs.write]
  · simp [Ev.isMove]
  · exact fun cf2 env2 t2 fs2 => spool_tr_phases_sorted cf2 env2 t2 fs2

/-- C5 witness: spooling as the nonexistent user `ghost`. -/
theorem spool_missing_owner_ordering_witness :
    cfGhost.is_valid fsEx = true ∧
    (cfGhost.spool envOk none fsEx).res = .error .noUserError ∧
    (cfGhost.spool envOk none fsEx).fs.files cfGhost.workPath =
      some "Channel: Local/5551234\nApplication: Playback\nData: hello-world\nArchive: yes" := by
  have h := spool_missing_owner_ordering cfGhost envOk none fsEx "ghost" rfl rfl
    (by decide) rfl
  exact ⟨rfl, h.1, h.2.1⟩

/-- Helper: `contents` of an invalid call file. -/
theorem contents_of_invalid (cf : CallFile) (fs : Fs)
    (h : cf.is_valid fs = false) :
    cf.contents fs = .error .validationError := by
  unfold CallFile.contents CallFile.buildfile
  rw [h]
  simp

/-- Helper: the exception of a remote branch is the exception of its first
failing step. -/
theorem runRemote_fst (fail : RStep → Option PErr) (connectEv : Ev)
    (wp sp : String) (uid gid : Nat) :
    (runRemote fail connectEv wp sp uid gid).1 = firstFailure fail := by
  unfold runRemote firstFailure
  cases h1 : fail .connect <;> cases h2 : fail .openChan <;>
    cases h3 : fail .put <;> cases h4 : fail .chownStep <;>
    cases h5 : fail .rename <;>
    simp [List.filterMap_cons, h1, h2, h3, h4, h5]

/-- Helper: a remote branch whose steps all succeed runs the full
upload–chown–rename–close sequence. -/
theorem runRemote_all_ok (fail : RStep → Option PErr) (connectEv : Ev)
    (wp sp : String) (uid gid : Nat) (h : ∀ s, fail s = none) :
    runRemote fail connectEv wp sp uid gid =
      (none, [connectEv, .sftpOpen, .sftpPut wp wp, .sftpChown wp uid gid,
              .sftpRename wp sp, .sftpClose, .transportClose, .clientClose]) := by
  unfold runRemote
  rw [h .connect, h .openChan, h .put, h .chownStep, h .rename]

/-- Helper: `remote_spool` in the password path when every remote step
succeeds: the full result, with the remote chown using the ids produced by
the owner block. -/
theorem remote_spool_pw_ok_eq (cf : CallFile) (env : Env)
    (ipaddr usr : String) (uid gid : Nat) (p : String) (fs : Fs)
    (uid2 gid2 : Nat) (tr1 : List Ev)
    (hv : cf.is_valid fs = true) (hp : p ≠ "")
    (hok : ∀ s, env.pwFail s = none)
    (hlo : cf.localOwnerStep env uid gid = .ok (uid2, gid2, tr1)) :
    cf.remote_spool env ipaddr usr uid gid (some p) none fs =
      ⟨.ok (),
       (fs.write cf.workPath "").write cf.workPath
         (String.intercalate "\n" cf.renderedLines),
       [.truncateFile cf.workPath,
        .writeFile cf.workPath (String.intercalate "\n" cf.renderedLines)]
         ++ tr1
         ++ [.connectPw ipaddr usr, .sftpOpen,
             .sftpPut cf.workPath cf.workPath,
             .sftpChown cf.workPath uid2 gid2,
             .sftpRename cf.workPath cf.spoolPath,
             .sftpClose, .transportClose, .clientClose]⟩ := by
  have hc := contents_eq_renderedLines cf fs hv
  have hw := writefile_of_contents_ok cf fs _ hc
  unfold CallFile.remote_spool
  rw [hw]
  simp only
  rw [hlo]
  simp only
  rw [if_neg hp]
  rw [runRemote_all_ok env.pwFail (.connectPw ipaddr usr) cf.workPath
    cf.spoolPath uid2 gid2 hok]

/-- C6 counterexample: a valid password and an unreachable host do not
yield `ParamikoError` — the `socket.error` (`IOError` family) raised while
constructing the transport is not caught by line 187's
`except paramiko.SSHException` and escapes as itself. -/
theorem remote_spool_unreachable_counterexample :
    (cfEx.remote_spool envConnRefused "10.9.9.9" "ast" 1 2 (some "pw") none
      fsEx).res = .error .ioError
    ∧ (cfEx.remote_spool envConnRefused "10.9.9.9" "ast" 1 2 (some "pw") none
        fsEx).res ≠ .error .paramikoError :=
  ⟨rfl, fun h => PyErr.noConfusion (Except.error.inj h)⟩

/-- C6 amended: in the password branch, a first failing remote step that
raises `paramiko.SSHException` (authentication rejection, protocol error,
or a connection failure paramiko wraps) is reported as `ParamikoError`,
while one raising an `IOError`-family exception (such as `socket.error`
from an unreachable host) escapes uncaught; in either case the local
materialized file persists at the work path. -/
theorem remote_spool_pw_failure_kinds (cf : CallFile) (env : Env)
    (ipaddr usr : String) (uid gid : Nat) (p : String) (pk : Option String)
    (fs : Fs) (o : Nat × Nat × List Ev) (e : PErr)
    (hv : cf.is_valid fs = true)
    (hlo : cf.localOwnerStep env uid gid = .ok o)
    (hp : p ≠ "")
    (hfail : firstFailure env.pwFail = some e) :
    (cf.remote_spool env ipaddr usr uid gid (some p) pk fs).res =
      .error (pwBranchErr e)
    ∧ (cf.remote_spool env ipaddr usr uid gid (some p) pk fs).fs.files
        cf.workPath = some (String.intercalate "\n" cf.renderedLines) := by
  have hc := contents_eq_renderedLines cf fs hv
  have hw := writefile_of_contents_ok cf fs _ hc
  obtain ⟨uid2, gid2, tr1⟩ := o
  have hr := runRemote_fst env.pwFail (.connectPw ipaddr usr) cf.workPath
    cf.spoolPath uid2 gid2
  rw [hfail] at hr
  cases hrr : runRemote env.pwFail (.connectPw ipaddr usr) cf.workPath
      cf.spoolPath uid2 gid2 with
  | mk f1 evs =>
    rw [hrr] at hr
    simp only at hr
    subst hr
    have hrun : cf.remote_spool env ipaddr usr uid gid (some p) pk fs =
        ⟨.error (pwBranchErr e),
         (fs.write cf.workPath "").write cf.workPath
           (String.intercalate "\n" cf.renderedLines),
         ([.truncateFile cf.workPath,
           .writeFile cf.workPath (String.intercalate "\n" cf.renderedLines)]
           ++ tr1) ++ evs⟩ := by
      unfold CallFile.remote_spool
      rw [hw]
      simp only
      rw [hlo]
      simp only
      rw [if_neg hp, hrr]
      cases e <;> rfl
    rw [hrun]
    exact ⟨rfl, by simp [Fs.write]⟩

/-- C6 amended witness: an authentication rejection (SSHException) becomes
`ParamikoError` and the local file persists. -/
theorem remote_spool_pw_failure_kinds_witness :
    cfEx.is_valid fsEx = true ∧
    firstFailure envPwDown.pwFail = some PErr.ssh ∧
    (cfEx.remote_spool envPwDown "10.0.0.1" "ast" 1 2 (some "pw") none fsEx).res =
      .error .paramikoError ∧
    (cfEx.remote_spool envPwDown "10.0.0.1" "ast" 1 2 (some "pw") none fsEx).fs.files
      cfEx.workPath =
      some "Channel: Local/5551234\nApplication: Playback\nData: hello-world\nArchive: yes" := by
  have h := remote_spool_pw_failure_kinds cfEx envPwDown "10.0.0.1" "ast"
    1 2 "pw" none fsEx (1, 2, []) PErr.ssh rfl rfl (by decide) rfl
  exact ⟨rfl, rfl, h.1, h.2⟩

/-- C7 counterexample: with owner `bob` set (resolving locally to uid 5,
gid 7) and arguments `uid = 1`, `gid = 2`, the remote chown receives the
locally resolved pair (5, 7), not the pair passed as arguments — lines
163-165 rebind the `uid`/`gid` parameters before the sftp chown. -/
theorem remote_chown_args_counterexample :
    Ev.sftpChown cfBob.workPath 5 7 ∈
      (cfBob.remote_spool envBob "10.0.0.1" "ast" 1 2 (some "pw") none fsEx).tr
    ∧ Ev.sftpChown cfBob.workPath 1 2 ∉
      (cfBob.remote_spool envBob "10.0.0.1" "ast" 1 2 (some "pw") none fsEx).tr := by
  decide

/-- C7 amended: the remote chown applies the `(uid, gid)` arguments only
when no owner is set; when the owner is set, the locally resolved pair is
used for both the local pre-chown (with the same error semantics as local
spooling) and the remote chown. -/
theorem remote_chown_ids (cf : CallFile) (env : Env) (ipaddr usr : String)
    (uid gid : Nat) (p : String) (fs : Fs)
    (hv : cf.is_valid fs = true) (hp : p ≠ "")
    (hok : ∀ s, env.pwFail s = none) :
    (cf.user = none →
      Ev.sftpChown cf.workPath uid gid ∈
        (cf.remote_spool env ipaddr usr uid gid (some p) none fs).tr)
    ∧ (∀ u u2 g2, cf.user = some u → u ≠ "" → env.users u = some (u2, g2) →
        env.chownOk = true →
        Ev.localChown cf.workPath u2 g2 ∈
          (cf.remote_spool env ipaddr usr uid gid (some p) none fs).tr
        ∧ Ev.sftpChown cf.workPath u2 g2 ∈
          (cf.remote_spool env ipaddr usr uid gid (some p) none fs).tr) := by
  constructor
  · intro hu
    have hlo : cf.localOwnerStep env uid gid = .ok (uid, gid, []) := by
      unfold CallFile.localOwnerStep
      rw [hu]
    rw [remote_spool_pw_ok_eq cf env ipaddr usr uid gid p fs uid gid [] hv hp
      hok hlo]
    simp
  · intro u u2 g2 hu hne hru hco
    have hlo : cf.localOwnerStep env uid gid =
        .ok (u2, g2, [.localChown cf.workPath u2 g2]) := by
      unfold CallFile.localOwnerStep
      simp only [hu]
      simp [hne, hru, hco]
    rw [remote_spool_pw_ok_eq cf env ipaddr usr uid gid p fs u2 g2 _ hv hp
      hok hlo]
    constructor <;> simp

/-- C7 amended witness: owner `bob` (uid 5, gid 7), arguments (1, 2): both
the local pre-chown and the remote chown use (5, 7). -/
theorem remote_chown_ids_witness :
    cfBob.is_valid fsEx = true ∧
    (Ev.localChown cfBob.workPath 5 7 ∈
      (cfBob.remote_spool envBob "10.0.0.1" "ast" 1 2 (some "pw") none fsEx).tr
    ∧ Ev.sftpChown cfBob.workPath 5 7 ∈
      (cfBob.remote_spool envBob "10.0.0.1" "ast" 1 2 (some "pw") none fsEx).tr) := by
  refine ⟨rfl, ?_⟩
  exact (remote_chown_ids cfBob envBob "10.0.0.1" "ast" 1 2 "pw" fsEx rfl
    (by decide) (fun s => by cases s <;> rfl)).2 "bob" 5 7 rfl (by decide)
    rfl rfl

/-- C8: the code violates the close-on-every-exit-path requirement — when
`sftp.put` raises `paramiko.SSHException` after the transport was opened,
the password branch raises `ParamikoError` without executing any of the
close calls: the trace opens one session and closes none. -/
theorem remote_session_leak :
    (cfEx.remote_spool envPutFails "10.0.0.1" "ast" 1 2 (some "pw") none fsEx).res =
      .error .paramikoError
    ∧ ((cfEx.remote_spool envPutFails "10.0.0.1" "ast" 1 2 (some "pw") none
          fsEx).tr.countP fun e => e.isOpenSession) = 1
    ∧ ((cfEx.remote_spool envPutFails "10.0.0.1" "ast" 1 2 (some "pw") none
          fsEx).tr.countP fun e => e.isCloseSession) = 0 :=
  ⟨rfl, rfl, rfl⟩

/-- C9 counterexample: a call file used only for remote dispatch is still
invalidated by a locally nonexistent spool directory — `is_valid` is false
and `remote_spool` fails with `ValidationError`. -/
theorem spool_dir_check_counterexample :
    cfNoDir.is_valid fsNoDir = false
    ∧ (cfNoDir.remote_spool envOk "10.0.0.1" "ast" 1 2 (some "pw") none
        fsNoDir).res = .error .validationError :=
  ⟨rfl, rfl⟩

/-- C9 amended: `is_valid` performs the spool-directory existence check
whenever `spool_dir` is truthy — which after construction it always is,
since `__init__` defaults it — irrespective of dispatch mode: any remote
dispatch with a locally nonexistent spool directory fails validation and
performs no remote operation. -/
theorem is_valid_checks_spool_dir_always (cf : CallFile) (fs : Fs)
    (h1 : cf.spool_dir ≠ "") (h2 : fs.dirs cf.spool_dir = false) :
    cf.is_valid fs = false
    ∧ (∀ (env : Env) (ipaddr usr : String) (uid gid : Nat)
        (passwd pkeypath : Option String),
        (cf.remote_spool env ipaddr usr uid gid passwd pkeypath fs).res =
          .error .validationError
        ∧ (cf.remote_spool env ipaddr usr uid gid passwd pkeypath fs).tr =
            [.truncateFile cf.workPath])
    ∧ ∀ sd, initSpoolDir sd ≠ "" := by
  have hcond : ((cf.spool_dir != "") && ! fs.dirs cf.spool_dir) = true := by
    simp [bne_iff_ne, h1, h2]
  have hval : cf.is_valid fs = false := by
    unfold CallFile.is_valid
    rw [hcond]
    simp
  have hwf := writefile_of_contents_error cf fs _ (contents_of_invalid cf fs hval)
  refine ⟨hval, ?_, ?_⟩
  · intro env ipaddr usr uid gid passwd pkeypath
    unfold CallFile.remote_spool
    rw [hwf]
    exact ⟨rfl, rfl⟩
  · intro sd
    cases sd with
    | none => simp [initSpoolDir, DEFAULT_SPOOL_DIR]
    | some s =>
      by_cases hs : s = ""
      · simp [initSpoolDir, hs, DEFAULT_SPOOL_DIR]
      · simp [initSpoolDir, hs]

/-- C9 amended witness: the nonexistent spool directory invalidates a
remote-only dispatch. -/
theorem is_valid_checks_spool_dir_always_witness :
    cfNoDir.spool_dir ≠ "" ∧
    fsNoDir.dirs cfNoDir.spool_dir = false ∧
    cfNoDir.is_valid fsNoDir = false ∧
    (cfNoDir.remote_spool envBob "10.0.0.1" "ast" 1 2 (some "pw") (some "/k")
      fsNoDir).res = .error .validationError := by
  have h := is_valid_checks_spool_dir_always cfNoDir fsNoDir (by decide) rfl
  exact ⟨by decide, rfl, h.1,
    (h.2.1 envBob "10.0.0.1" "ast" 1 2 (some "pw") (some "/k")).1⟩

/-- C10 counterexample: a valid call file whose owner does not exist
locally makes `remote_spool` with both credentials `None` raise
`NoUserError` — it does not return successfully. -/
theorem remote_spool_no_creds_counterexample :
    cfGhost.is_valid fsEx = true
    ∧ (cfGhost.remote_spool envOk "10.0.0.1" "ast" 1 2 none none fsEx).res =
        .error .noUserError :=
  ⟨rfl, rfl⟩

/-- C10 amended: for every valid call file whose owner block succeeds (no
owner set, or the owner resolves locally with the chown permitted),
`remote_spool` with both credentials `None` raises no error, performs no
remote operation at all, applies exactly the owner block's local
pre-chown, and leaves the materialized file at the work path. -/
theorem remote_spool_no_creds (cf : CallFile) (env : Env)
    (ipaddr usr : String) (uid gid : Nat) (fs : Fs) (o : Nat × Nat × List Ev)
    (hv : cf.is_valid fs = true)
    (hlo : cf.localOwnerStep env uid gid = .ok o) :
    (cf.remote_spool env ipaddr usr uid gid none none fs).res = .ok ()
    ∧ ((cf.remote_spool env ipaddr usr uid gid none none fs).tr.all
        fun e => ! e.isRemote) = true
    ∧ (cf.remote_spool env ipaddr usr uid gid none none fs).fs.files
        cf.workPath = some (String.intercalate "\n" cf.renderedLines)
    ∧ (cf.remote_spool env ipaddr usr uid gid none none fs).tr =
        [.truncateFile cf.workPath,
         .writeFile cf.workPath (String.intercalate "\n" cf.renderedLines)]
          ++ o.2.2 := by
  have hc := contents_eq_renderedLines cf fs hv
  have hw := writefile_of_contents_ok cf fs _ hc
  obtain ⟨uid2, gid2, tr1⟩ := o
  have hrun : cf.remote_spool env ipaddr usr uid gid none none fs =
      ⟨.ok (),
       (fs.write cf.workPath "").write cf.workPath
         (String.intercalate "\n" cf.renderedLines),
       [.truncateFile cf.workPath,
        .writeFile cf.workPath (String.intercalate "\n" cf.renderedLines)]
         ++ tr1⟩ := by
    unfold CallFile.remote_spool
    rw [hw]
    simp only
    rw [hlo]
    simp
  rw [hrun]
  refine ⟨rfl, ?_, ?_, rfl⟩
  · rcases localOwnerStep_tr cf env uid gid uid2 gid2 tr1 hlo with h | h <;>
      subst h <;> simp [Ev.isRemote]
  · simp [Fs.write]

/-- C10 amended witness: owner `bob` resolves; no credentials, no remote
events, pre-chown applied, file left at the work path. -/
theorem remote_spool_no_creds_witness :
    cfBob.is_valid fsEx = true ∧
    (cfBob.remote_spool envBob "10.0.0.1" "ast" 1 2 none none fsEx).res = .ok () ∧
    (cfBob.remote_spool envBob "10.0.0.1" "ast" 1 2 none none fsEx).tr =
      [Ev.truncateFile cfBob.workPath,
       Ev.writeFile cfBob.workPath
        "Channel: Local/5551234\nApplication: Playback\nData: hello-world\nArchive: yes",
       Ev.localChown cfBob.workPath 5 7] := by
  have h := remote_spool_no_creds cfBob envBob "10.0.0.1" "ast" 1 2 fsEx
    (5, 7, [Ev.localChown cfBob.workPath 5 7]) rfl rfl
  refine ⟨rfl, h.1, ?_⟩
  rw [h.2.2.2]
  rfl

end Pycall
